import Mathlib

/-!
# Verification of the BT-RADS decision-graph engine

Shallow embedding of the decision-graph orchestration engine of the
`btrads-agent-system` repository, together with proofs checking the
natural-language specification against the code.

The embedding covers:
* the deterministic rule functions of `backend/utils/btrads_calculations.py`
  (`get_direction_with_validation`, `apply_enhancement_priority_rule`,
  `determine_component_worsening`, `apply_40_percent_rule`,
  `determine_radiation_timing`, `get_btrads_score`);
* the static decision graph of `backend/utils/flowchart.py`
  (`BTRADSFlowchart._build_flowchart`, `get_next_node`);
* the traversal loop and error-fallback policy of
  `backend/agents/orchestration/agent_orchestrator.py` together with the
  per-agent error results of `backend/agents/base_simple.py`;
* the validation gate of `AgentOrchestrator` (`_wait_for_validation`,
  `validate_result`);
* the conditional-edge routing of
  `backend/agents/orchestration/langgraph_orchestrator.py`.

Python floats are modelled as rationals (`ℚ`), Python dictionaries keyed by
string as association lists, and fallible operations as `Option`/`Except`.
-/

namespace BTRADS

/-! ## Rule engine — `backend/utils/btrads_calculations.py` -/

/-- `MIN_SIGNIFICANT_ABS_CHANGE = 1.0` (line 12): 1 ml is the clinical
significance floor for absolute volume changes. -/
def MIN_SIGNIFICANT_ABS_CHANGE : ℚ := 1

/-- The three volume-change directions produced by
`get_direction_with_validation`. -/
inductive Direction
  | up
  | down
  | stable
deriving DecidableEq

/-- The percentage branch of `get_direction_with_validation`
(lines 66-71): `> 10` is `up`, `< -10` is `down`, otherwise `stable`. -/
def direction_from_pct (pct_change : ℚ) : Direction :=
  if pct_change > 10 then Direction.up
  else if pct_change < -10 then Direction.down
  else Direction.stable

/-- `get_direction_with_validation` (lines 58-71 of
`btrads_calculations.py`): when an absolute volume change is supplied and its
magnitude is below the 1 ml floor the direction is forced to `stable`
before the percentage test runs; otherwise the percentage test decides.
The human-readable reasoning string of the Python return value is not
modelled; only the category is. -/
def get_direction_with_validation (pct_change : ℚ) (abs_change : Option ℚ) :
    Direction :=
  match abs_change with
  | some a =>
      if |a| < MIN_SIGNIFICANT_ABS_CHANGE then Direction.stable
      else direction_from_pct pct_change
  | none => direction_from_pct pct_change

/-- `apply_enhancement_priority_rule` (lines 14-104 of
`btrads_calculations.py`).  Absolute changes are derived from
baseline/followup volumes when both are present.  The `"unknown"` branch of
the Python function is only reachable when `float()` fails to parse an
input and so does not arise in this typed embedding.  The reasoning-string
component of the return value is not modelled. -/
def apply_enhancement_priority_rule (flair_change_pct enh_change_pct : ℚ)
    (baseline_flair baseline_enh followup_flair followup_enh : Option ℚ) :
    String :=
  let flair_abs_change : Option ℚ :=
    match baseline_flair, followup_flair with
    | some b, some f => some (f - b)
    | _, _ => none
  let enh_abs_change : Option ℚ :=
    match baseline_enh, followup_enh with
    | some b, some f => some (f - b)
    | _, _ => none
  let flair_direction := get_direction_with_validation flair_change_pct flair_abs_change
  let enh_direction := get_direction_with_validation enh_change_pct enh_abs_change
  if flair_direction ≠ enh_direction ∧ flair_direction ≠ Direction.stable ∧
      enh_direction ≠ Direction.stable then
    if enh_direction = Direction.up then "worse" else "improved"
  else if flair_direction = Direction.up ∨ enh_direction = Direction.up then
    "worse"
  else if flair_direction = Direction.down ∨ enh_direction = Direction.down then
    "improved"
  else
    "unchanged"

/-- `determine_component_worsening` (lines 155-184): a component is worse
iff its percent change is strictly above 10. -/
def determine_component_worsening (flair_change_pct enh_change_pct : ℚ) :
    String :=
  let flair_worse := flair_change_pct > 10
  let enh_worse := enh_change_pct > 10
  if flair_worse ∧ enh_worse then "flair_and_enh"
  else if flair_worse ∨ enh_worse then "flair_or_enh"
  else "unknown"

/-- `apply_40_percent_rule` (lines 187-213): classification of the larger
of the two percent changes against the 40% threshold. -/
def apply_40_percent_rule (flair_change_pct enh_change_pct : ℚ) : String :=
  let max_increase := max flair_change_pct enh_change_pct
  if max_increase ≥ 40 then "major"
  else if max_increase > 0 then "minor"
  else "unknown"

/-- `determine_radiation_timing` (lines 139-152): the 90-day rule over the
integer day count (negative means the date calculation failed). -/
def determine_radiation_timing (days_since_radiation : ℤ) : String :=
  if days_since_radiation < 0 then "unknown"
  else if days_since_radiation < 90 then "within_90_days"
  else "beyond_90_days"

theorem get_direction_none (p : ℚ) :
    get_direction_with_validation p none = direction_from_pct p := rfl

theorem dir_stable_iff (p : ℚ) :
    direction_from_pct p = Direction.stable ↔ |p| ≤ 10 := by
  unfold direction_from_pct
  rw [abs_le]
  split_ifs with h1 h2
  · constructor
    · intro h; exact absurd h (by decide)
    · intro h; exfalso; linarith [h.2]
  · constructor
    · intro h; exact absurd h (by decide)
    · intro h; exfalso; linarith [h.1]
  · constructor
    · intro _; exact ⟨by linarith, by linarith⟩
    · intro _; rfl

theorem dir_up_iff (p : ℚ) :
    direction_from_pct p = Direction.up ↔ 10 < p := by
  unfold direction_from_pct
  split_ifs with h1 h2
  · simp [h1]
  · simp; linarith
  · simp; linarith

theorem dir_down_iff (p : ℚ) :
    direction_from_pct p = Direction.down ↔ p < -10 := by
  unfold direction_from_pct
  split_ifs with h1 h2
  · simp; linarith
  · simp [h2]
  · simp; linarith

/-- With no baseline/followup volumes supplied, both absolute changes are
`none` and `apply_enhancement_priority_rule` reduces to the decision on the
two percentage directions. -/
theorem apply_rule_unfold (f e : ℚ) :
    apply_enhancement_priority_rule f e none none none none =
      (let fd := direction_from_pct f
       let ed := direction_from_pct e
       if fd ≠ ed ∧ fd ≠ Direction.stable ∧ ed ≠ Direction.stable then
         if ed = Direction.up then "worse" else "improved"
       else if fd = Direction.up ∨ ed = Direction.up then "worse"
       else if fd = Direction.down ∨ ed = Direction.down then "improved"
       else "unchanged") := rfl

/-- Case table for `apply_enhancement_priority_rule` with no absolute
volume data, indexed by the two component directions. -/
theorem apply_rule_cases (f e : ℚ) :
    apply_enhancement_priority_rule f e none none none none =
      match direction_from_pct f, direction_from_pct e with
      | Direction.up, Direction.up => "worse"
      | Direction.up, Direction.stable => "worse"
      | Direction.stable, Direction.up => "worse"
      | Direction.down, Direction.down => "improved"
      | Direction.down, Direction.stable => "improved"
      | Direction.stable, Direction.down => "improved"
      | Direction.stable, Direction.stable => "unchanged"
      | Direction.up, Direction.down => "improved"
      | Direction.down, Direction.up => "worse" := by
  rw [apply_rule_unfold]
  cases hf : direction_from_pct f <;> cases he : direction_from_pct e <;>
    simp only [hf, he] <;> rfl

/-- C1: the enhancement-priority rule.  When the two component directions
disagree and neither is stable, the enhancement direction decides the
overall assessment (`up` gives `"worse"`, `down` gives `"improved"`);
agreeing directions map `up` to `"worse"`, `down` to `"improved"` and
`stable`/`stable` to `"unchanged"`; with exactly one stable component the
result follows the non-stable component.  In particular
`overallAssessment(+15, -25) = "improved"` and
`overallAssessment(+9, +790) = "worse"`. -/
theorem c1_enhancement_priority (f e : ℚ) :
    (direction_from_pct f ≠ direction_from_pct e →
      direction_from_pct f ≠ Direction.stable →
      direction_from_pct e ≠ Direction.stable →
      apply_enhancement_priority_rule f e none none none none =
        (if direction_from_pct e = Direction.up then "worse" else "improved"))
    ∧ (direction_from_pct f = direction_from_pct e →
        apply_enhancement_priority_rule f e none none none none =
          (match direction_from_pct f with
           | Direction.up => "worse"
           | Direction.down => "improved"
           | Direction.stable => "unchanged"))
    ∧ (direction_from_pct f = Direction.stable →
        direction_from_pct e ≠ Direction.stable →
        apply_enhancement_priority_rule f e none none none none =
          (if direction_from_pct e = Direction.up then "worse" else "improved"))
    ∧ (direction_from_pct e = Direction.stable →
        direction_from_pct f ≠ Direction.stable →
        apply_enhancement_priority_rule f e none none none none =
          (if direction_from_pct f = Direction.up then "worse" else "improved"))
    ∧ apply_enhancement_priority_rule 15 (-25) none none none none = "improved"
    ∧ apply_enhancement_priority_rule 9 790 none none none none = "worse" := by
  refine ⟨?_, ?_, ?_, ?_, ?_, ?_⟩
  · intro h1 h2 h3
    rw [apply_rule_cases]
    cases hf : direction_from_pct f <;> cases he : direction_from_pct e <;>
      simp_all
  · intro h1
    rw [apply_rule_cases]
    cases hf : direction_from_pct f <;> cases he : direction_from_pct e <;>
      simp_all
  · intro h1 h2
    rw [apply_rule_cases]
    cases hf : direction_from_pct f <;> cases he : direction_from_pct e <;>
      simp_all
  · intro h1 h2
    rw [apply_rule_cases]
    cases hf : direction_from_pct f <;> cases he : direction_from_pct e <;>
      simp_all
  · rw [apply_rule_cases]
    norm_num [direction_from_pct]
  · rw [apply_rule_cases]
    norm_num [direction_from_pct]

/-- Closed witness for `c1_enhancement_priority`: at `(+15, -25)` the two
directions disagree, neither is stable, and the enhancement direction
(`down`) makes the overall assessment `"improved"`. -/
theorem c1_enhancement_priority_witness :
    direction_from_pct (15 : ℚ) ≠ direction_from_pct (-25 : ℚ) ∧
    apply_enhancement_priority_rule 15 (-25) none none none none = "improved" := by
  have h1 : direction_from_pct (15 : ℚ) = Direction.up := by
    norm_num [direction_from_pct]
  have h2 : direction_from_pct (-25 : ℚ) = Direction.down := by
    norm_num [direction_from_pct]
  refine ⟨by rw [h1, h2]; decide, ?_⟩
  have := (c1_enhancement_priority 15 (-25)).1
    (by rw [h1, h2]; decide) (by rw [h1]; decide) (by rw [h2]; decide)
  rw [this, h2]
  rfl

/-- C2: the clinical-significance floor.  With no absolute change supplied
the direction is `stable` iff `|pct| ≤ 10`; with an absolute change
supplied, `|abs| < 1` forces `stable` before the percent test is consulted
(so the direction is `stable` iff `|abs| < 1 ∨ |pct| ≤ 10`), and in
particular a `+50%` relative change with a `0.5` ml absolute change is
classified `stable`. -/
theorem c2_clinical_significance_floor (p a : ℚ) :
    (get_direction_with_validation p none = Direction.stable ↔ |p| ≤ 10)
    ∧ (get_direction_with_validation p (some a) = Direction.stable ↔
        (|a| < 1 ∨ |p| ≤ 10))
    ∧ (|a| < 1 → get_direction_with_validation p (some a) = Direction.stable)
    ∧ get_direction_with_validation 50 (some (1/2)) = Direction.stable := by
  have habs : ∀ q : ℚ, get_direction_with_validation q (some a) =
      if |a| < 1 then Direction.stable else direction_from_pct q := fun q => rfl
  refine ⟨?_, ?_, ?_, ?_⟩
  · rw [get_direction_none, dir_stable_iff]
  · rw [habs]
    split_ifs with h
    · simp [h]
    · rw [dir_stable_iff]
      simp [h]
  · intro h
    rw [habs, if_pos h]
  · show (if |(1 : ℚ)/2| < MIN_SIGNIFICANT_ABS_CHANGE then Direction.stable
      else direction_from_pct 50) = Direction.stable
    rw [if_pos]
    unfold MIN_SIGNIFICANT_ABS_CHANGE
    rw [abs_lt]
    constructor <;> norm_num

/-- Closed witness for `c2_clinical_significance_floor`: the absolute
change `0.5` ml is below the 1 ml floor and forces `stable` despite a
`+50%` relative change. -/
theorem c2_clinical_significance_floor_witness :
    |(1 : ℚ)/2| < 1 ∧
    get_direction_with_validation 50 (some (1/2)) = Direction.stable := by
  have h : |(1 : ℚ)/2| < 1 := by
    rw [abs_lt]
    constructor <;> norm_num
  exact ⟨h, (c2_clinical_significance_floor 50 (1/2)).2.2.1 h⟩

/-- `determine_component_worsening` with its local bindings inlined. -/
theorem determine_component_worsening_eq (f e : ℚ) :
    determine_component_worsening f e =
      if f > 10 ∧ e > 10 then "flair_and_enh"
      else if f > 10 ∨ e > 10 then "flair_or_enh"
      else "unknown" := rfl

/-- C9: component worsening.  A component is worse iff its percent change
is strictly greater than 10; both worse gives `"flair_and_enh"` (the
claim's `both`), exactly one worse gives `"flair_or_enh"` (the claim's
`one`), neither gives the indecisive category, spelt `"unknown"` in the
source (the claim's `none`). -/
theorem c9_component_worsening (f e : ℚ) :
    (determine_component_worsening f e = "flair_and_enh" ↔ 10 < f ∧ 10 < e)
    ∧ (determine_component_worsening f e = "flair_or_enh" ↔
        ((10 < f ∧ e ≤ 10) ∨ (f ≤ 10 ∧ 10 < e)))
    ∧ (determine_component_worsening f e = "unknown" ↔ f ≤ 10 ∧ e ≤ 10) := by
  rw [determine_component_worsening_eq]
  have hab : ("flair_and_enh" : String) ≠ "flair_or_enh" := by decide
  have hau : ("flair_and_enh" : String) ≠ "unknown" := by decide
  have hbu : ("flair_or_enh" : String) ≠ "unknown" := by decide
  split_ifs with h1 h2
  · refine ⟨iff_of_true rfl ⟨h1.1, h1.2⟩, iff_of_false hab ?_, iff_of_false hau ?_⟩
    · rintro (⟨_, h⟩ | ⟨h, _⟩) <;> linarith [h1.1, h1.2]
    · rintro ⟨hf, _⟩; linarith [h1.1]
  · push_neg at h1
    refine ⟨iff_of_false (Ne.symm hab) ?_, iff_of_true rfl ?_, iff_of_false hbu ?_⟩
    · rintro ⟨hf, he⟩; exact absurd (h1 hf) (not_le.mpr he)
    · rcases h2 with hf | he
      · exact Or.inl ⟨hf, h1 hf⟩
      · right
        constructor
        · by_contra hc
          push_neg at hc
          exact absurd (h1 hc) (not_le.mpr he)
        · exact he
    · rintro ⟨hf, he⟩
      rcases h2 with h | h <;> linarith
  · push_neg at h1 h2
    refine ⟨iff_of_false (Ne.symm hau) ?_, iff_of_false (Ne.symm hbu) ?_,
      iff_of_true rfl ⟨h2.1, h2.2⟩⟩
    · rintro ⟨hf, _⟩; linarith [h2.1]
    · rintro (⟨hf, _⟩ | ⟨_, he⟩) <;> linarith [h2.1, h2.2]

/-- C4: the 40% extent rule.  The rule takes `max(flairPct, enhPct)` and
returns `"major"` iff it is `≥ 40` (boundary inclusive), `"minor"` iff it
is strictly between 0 and 40, and the indecisive category — spelt
`"unknown"` in the source, the claim's `none` — iff it is `≤ 0`.  The
boundary examples `extentClassification(39.9, 10) = minor` and
`extentClassification(40.0, 10) = major` hold. -/
theorem c4_forty_percent_rule (f e : ℚ) :
    (apply_40_percent_rule f e = "major" ↔ 40 ≤ max f e)
    ∧ (apply_40_percent_rule f e = "minor" ↔ 0 < max f e ∧ max f e < 40)
    ∧ (apply_40_percent_rule f e = "unknown" ↔ max f e ≤ 0)
    ∧ apply_40_percent_rule (399/10) 10 = "minor"
    ∧ apply_40_percent_rule 40 10 = "major" := by
  have heq : ∀ a b : ℚ, apply_40_percent_rule a b =
      if max a b ≥ 40 then "major"
      else if max a b > 0 then "minor"
      else "unknown" := fun _ _ => rfl
  have hmm : ("major" : String) ≠ "minor" := by decide
  have hmu : ("major" : String) ≠ "unknown" := by decide
  have hnu : ("minor" : String) ≠ "unknown" := by decide
  refine ⟨?_, ?_, ?_, ?_, ?_⟩
  · rw [heq]
    split_ifs with h1 h2
    · exact iff_of_true rfl h1
    · exact iff_of_false (Ne.symm hmm) h1
    · exact iff_of_false (Ne.symm hmu) h1
  · rw [heq]
    split_ifs with h1 h2
    · exact iff_of_false hmm (by rintro ⟨_, h⟩; linarith)
    · push_neg at h1
      exact iff_of_true rfl ⟨h2, h1⟩
    · exact iff_of_false (Ne.symm hnu) (by rintro ⟨h, _⟩; exact h2 h)
  · rw [heq]
    split_ifs with h1 h2
    · exact iff_of_false hmu (by intro h; linarith)
    · exact iff_of_false hnu (by intro h; linarith)
    · push_neg at h2
      exact iff_of_true rfl h2
  · rw [heq]
    rw [if_neg (not_le.mpr (max_lt (by norm_num) (by norm_num))),
      if_pos (lt_max_iff.mpr (Or.inl (by norm_num)))]
  · rw [heq]
    rw [if_pos (le_max_iff.mpr (Or.inl (by norm_num)))]

/-- C5: the 90-day radiation-timing rule.  Classification is `"unknown"`
iff the day count is negative, `"within_90_days"` iff it lies in `[0, 90)`
and `"beyond_90_days"` iff it is `≥ 90`; in particular day 89 is within
the window and day 90 is beyond it. -/
theorem c5_radiation_timing (d : ℤ) :
    (determine_radiation_timing d = "unknown" ↔ d < 0)
    ∧ (determine_radiation_timing d = "within_90_days" ↔ 0 ≤ d ∧ d < 90)
    ∧ (determine_radiation_timing d = "beyond_90_days" ↔ 90 ≤ d)
    ∧ determine_radiation_timing 89 = "within_90_days"
    ∧ determine_radiation_timing 90 = "beyond_90_days" := by
  have huw : ("unknown" : String) ≠ "within_90_days" := by decide
  have hub : ("unknown" : String) ≠ "beyond_90_days" := by decide
  have hwb : ("within_90_days" : String) ≠ "beyond_90_days" := by decide
  refine ⟨?_, ?_, ?_, ?_, ?_⟩
  · unfold determine_radiation_timing
    split_ifs with h1 h2
    · exact iff_of_true rfl h1
    · exact iff_of_false huw.symm (by omega)
    · exact iff_of_false hub.symm (by omega)
  · unfold determine_radiation_timing
    split_ifs with h1 h2
    · exact iff_of_false huw (by omega)
    · exact iff_of_true rfl (by omega)
    · exact iff_of_false (Ne.symm hwb) (by omega)
  · unfold determine_radiation_timing
    split_ifs with h1 h2
    · exact iff_of_false hub (by omega)
    · exact iff_of_false hwb (by omega)
    · exact iff_of_true rfl (by omega)
  · rfl
  · rfl

/-! ## Decision graph — `backend/utils/flowchart.py` -/

/-- The node identifiers of `BTRADSFlowchart._build_flowchart`
(lines 10-219 of `flowchart.py`). -/
inductive NodeId
  | node_1_suitable_prior
  | outcome_bt_0
  | node_2_imaging_assessment
  | outcome_bt_2
  | node_3a_medications
  | node_3b_avastin_response
  | node_3c_steroid_effects
  | outcome_bt_1a
  | outcome_bt_1b
  | node_4_time_since_xrt
  | outcome_bt_3a
  | node_5_what_is_worse
  | outcome_bt_3b
  | node_6_how_much_worse
  | node_7_progressive
  | outcome_bt_3c
  | outcome_bt_4
deriving DecidableEq

/-- The two node kinds appearing in the flowchart dictionary: the `"type"`
field is either `"data_extraction"` or `"outcome"`. -/
inductive NodeType
  | data_extraction
  | outcome
deriving DecidableEq

/-- One node of the flowchart dictionary: the fields of the per-node
configuration dicts built by `_build_flowchart` that the navigation logic
reads (`type`, `agent`, `btrads_score`, `next_nodes`, `default_next`).
The UI-only `label` and `description` fields are not modelled. -/
structure FlowNode where
  type : NodeType
  agent : Option String
  btrads_score : Option String
  next_nodes : List (String × NodeId)
  default_next : Option NodeId
deriving DecidableEq

/-- `BTRADSFlowchart._build_flowchart` (lines 10-219 of `flowchart.py`),
one case per dictionary entry. -/
def flowchartNodes : NodeId → FlowNode
  | NodeId.node_1_suitable_prior =>
      { type := NodeType.data_extraction
        agent := some "prior_assessment"
        btrads_score := none
        next_nodes := [("yes", NodeId.node_2_imaging_assessment),
          ("no", NodeId.outcome_bt_0),
          ("unknown", NodeId.node_2_imaging_assessment)]
        default_next := some NodeId.node_2_imaging_assessment }
  | NodeId.outcome_bt_0 =>
      { type := NodeType.outcome
        agent := none
        btrads_score := some "0"
        next_nodes := []
        default_next := none }
  | NodeId.node_2_imaging_assessment =>
      { type := NodeType.data_extraction
        agent := some "imaging_comparison"
        btrads_score := none
        next_nodes := [("improved", NodeId.node_3a_medications),
          ("unchanged", NodeId.outcome_bt_2),
          ("worse", NodeId.node_4_time_since_xrt),
          ("unknown", NodeId.outcome_bt_2)]
        default_next := some NodeId.outcome_bt_2 }
  | NodeId.outcome_bt_2 =>
      { type := NodeType.outcome
        agent := none
        btrads_score := some "2"
        next_nodes := []
        default_next := none }
  | NodeId.node_3a_medications =>
      { type := NodeType.data_extraction
        agent := some "medication_effects"
        btrads_score := none
        next_nodes := [("avastin", NodeId.node_3b_avastin_response),
          ("increasing_steroids", NodeId.node_3c_steroid_effects),
          ("neither", NodeId.outcome_bt_1a),
          ("unknown", NodeId.outcome_bt_1a)]
        default_next := some NodeId.outcome_bt_1a }
  | NodeId.node_3b_avastin_response =>
      { type := NodeType.data_extraction
        agent := some "avastin_response"
        btrads_score := none
        next_nodes := [("first_study_enh_only", NodeId.outcome_bt_1b),
          ("sustained_improvement", NodeId.outcome_bt_1a),
          ("unknown", NodeId.outcome_bt_1b)]
        default_next := some NodeId.outcome_bt_1b }
  | NodeId.node_3c_steroid_effects =>
      { type := NodeType.data_extraction
        agent := some "steroid_effects"
        btrads_score := none
        next_nodes := [("likely_steroid_effect", NodeId.outcome_bt_1b),
          ("unlikely_steroid_effect", NodeId.outcome_bt_1a),
          ("unknown", NodeId.outcome_bt_1b)]
        default_next := some NodeId.outcome_bt_1b }
  | NodeId.outcome_bt_1a =>
      { type := NodeType.outcome
        agent := none
        btrads_score := some "1a"
        next_nodes := []
        default_next := none }
  | NodeId.outcome_bt_1b =>
      { type := NodeType.outcome
        agent := none
        btrads_score := some "1b"
        next_nodes := []
        default_next := none }
  | NodeId.node_4_time_since_xrt =>
      { type := NodeType.data_extraction
        agent := some "radiation_timeline"
        btrads_score := none
        next_nodes := [("within_90_days", NodeId.outcome_bt_3a),
          ("beyond_90_days", NodeId.node_5_what_is_worse),
          ("unknown", NodeId.node_5_what_is_worse)]
        default_next := some NodeId.node_5_what_is_worse }
  | NodeId.outcome_bt_3a =>
      { type := NodeType.outcome
        agent := none
        btrads_score := some "3a"
        next_nodes := []
        default_next := none }
  | NodeId.node_5_what_is_worse =>
      { type := NodeType.data_extraction
        agent := some "component_analysis"
        btrads_score := none
        next_nodes := [("flair_or_enh", NodeId.outcome_bt_3b),
          ("flair_and_enh", NodeId.node_6_how_much_worse),
          ("unknown", NodeId.outcome_bt_3b)]
        default_next := some NodeId.outcome_bt_3b }
  | NodeId.outcome_bt_3b =>
      { type := NodeType.outcome
        agent := none
        btrads_score := some "3b"
        next_nodes := []
        default_next := none }
  | NodeId.node_6_how_much_worse =>
      { type := NodeType.data_extraction
        agent := some "extent_analysis"
        btrads_score := none
        next_nodes := [("major", NodeId.outcome_bt_4),
          ("minor", NodeId.node_7_progressive),
          ("unknown", NodeId.outcome_bt_3c)]
        default_next := some NodeId.outcome_bt_3c }
  | NodeId.node_7_progressive =>
      { type := NodeType.data_extraction
        agent := some "progression_pattern"
        btrads_score := none
        next_nodes := [("yes", NodeId.outcome_bt_4),
          ("no", NodeId.outcome_bt_3c),
          ("unknown", NodeId.outcome_bt_3c)]
        default_next := some NodeId.outcome_bt_3c }
  | NodeId.outcome_bt_3c =>
      { type := NodeType.outcome
        agent := none
        btrads_score := some "3c"
        next_nodes := []
        default_next := none }
  | NodeId.outcome_bt_4 =>
      { type := NodeType.outcome
        agent := none
        btrads_score := some "4"
        next_nodes := []
        default_next := none }

/-- `BTRADSFlowchart.get_next_node` (lines 227-235 of `flowchart.py`):
outcome nodes return `None`; otherwise the decision string is looked up
exactly in `next_nodes` and on a miss `default_next` is returned. -/
def get_next_node (current_node_id : NodeId) (decision : String) :
    Option NodeId :=
  let node := flowchartNodes current_node_id
  match node.type with
  | NodeType.outcome => none
  | NodeType.data_extraction =>
      match List.lookup decision node.next_nodes with
      | some nxt => some nxt
      | none => node.default_next

/-- `BTRADSFlowchart.is_terminal` (lines 237-240 of `flowchart.py`). -/
def is_terminal (node_id : NodeId) : Bool :=
  (flowchartNodes node_id).type = NodeType.outcome

/-- C6: graph totality.  For every non-terminal node and every decision
string — including any `"unknown"`-class key absent from the transition
map — `get_next_node` yields some valid node id (never `None`/empty), and
whenever the exact-match lookup misses it yields the node's
`default_next`. -/
theorem get_next_node_extraction (nid : NodeId) (decision : String)
    (h : (flowchartNodes nid).type = NodeType.data_extraction) :
    get_next_node nid decision =
      (match List.lookup decision (flowchartNodes nid).next_nodes with
       | some nxt => some nxt
       | none => (flowchartNodes nid).default_next) := by
  show (match (flowchartNodes nid).type with
    | NodeType.outcome => none
    | NodeType.data_extraction =>
      match List.lookup decision (flowchartNodes nid).next_nodes with
      | some nxt => some nxt
      | none => (flowchartNodes nid).default_next) = _
  rw [h]

theorem default_next_isSome (nid : NodeId)
    (h : (flowchartNodes nid).type = NodeType.data_extraction) :
    ∃ d : NodeId, (flowchartNodes nid).default_next = some d := by
  cases nid <;> first
    | exact absurd h (by decide)
    | exact ⟨_, rfl⟩

theorem c6_graph_totality (nid : NodeId)
    (h : (flowchartNodes nid).type = NodeType.data_extraction)
    (decision : String) :
    (∃ nxt : NodeId, get_next_node nid decision = some nxt)
    ∧ (List.lookup decision (flowchartNodes nid).next_nodes = none →
        get_next_node nid decision = (flowchartNodes nid).default_next) := by
  constructor
  · rw [get_next_node_extraction nid decision h]
    cases hl : List.lookup decision (flowchartNodes nid).next_nodes with
    | some nxt => exact ⟨nxt, rfl⟩
    | none =>
        obtain ⟨d, hd⟩ := default_next_isSome nid h
        exact ⟨d, hd⟩
  · intro hl
    rw [get_next_node_extraction nid decision h, hl]

/-- Closed witness for `c6_graph_totality`: the imaging-assessment node is
non-terminal, and an arbitrary key absent from its transition map still
yields a next node. -/
theorem c6_graph_totality_witness :
    (flowchartNodes NodeId.node_2_imaging_assessment).type =
      NodeType.data_extraction
    ∧ ∃ nxt : NodeId,
        get_next_node NodeId.node_2_imaging_assessment "mystery-key" =
          some nxt :=
  ⟨by decide,
    (c6_graph_totality NodeId.node_2_imaging_assessment (by decide)
      "mystery-key").1⟩

/-! ## Final score derivation — `get_btrads_score` -/

/-- Python's `substr in s` on strings, via list-infix containment. -/
def strContains (s substr : String) : Bool :=
  decide (substr.data <:+: s.data)

/-- `get_btrads_score` (lines 216-271 of `btrads_calculations.py`): the
final-score derivation table over the algorithm path and the per-node
decision values. -/
def get_btrads_score (algorithm_path imaging_assessment : String)
    (medication_status radiation_timing component_worsening
      extent progression_pattern : Option String) : String × String :=
  if strContains algorithm_path "suitable_prior" ∧
      strContains algorithm_path "BT-0" then
    ("0", "No suitable prior imaging for comparison")
  else if imaging_assessment = "unchanged" then
    ("2", "Stable disease - no significant change")
  else if imaging_assessment = "improved" then
    if medication_status = some "avastin" then
      ("1b", "Improvement on Avastin (medication effect)")
    else if medication_status = some "increasing_steroids" then
      ("1b", "Improvement with increasing steroids (medication effect)")
    else
      ("1a", "True tumor improvement (no medication effects)")
  else if imaging_assessment = "worse" then
    if radiation_timing = some "within_90_days" then
      ("3a", "Worsening within 90 days of radiation (favor treatment effect)")
    else if component_worsening = some "flair_or_enh" then
      ("3b", "Indeterminate progression (only one component worse)")
    else if component_worsening = some "flair_and_enh" then
      if extent = some "major" then
        ("4", "Highly suspicious for tumor progression (>40% increase)")
      else if extent = some "minor" then
        if progression_pattern = some "yes" then
          ("4", "Progressive disease over multiple studies")
        else
          ("3c", "Favors tumor but not clearly progressive")
      else
        ("3b", "Indeterminate (insufficient data for definitive classification)")
    else
      ("3b", "Indeterminate (insufficient data for definitive classification)")
  else
    ("3b", "Indeterminate (insufficient data for definitive classification)")

/-! ## Imaging-comparison extraction —
`backend/agents/extraction/imaging_comparison_vllm.py` -/

/-- The quantitative fields of the agent context read by
`ImagingComparisonAgent.parse_response`. -/
structure ImagingContext where
  flair_change_pct : Option ℚ
  enhancement_change_pct : Option ℚ
  baseline_flair : Option ℚ
  baseline_enhancement : Option ℚ
  followup_flair : Option ℚ
  followup_enhancement : Option ℚ
deriving DecidableEq

/-- The volume-first branch of `ImagingComparisonAgent.parse_response`
(lines 116-141 of `imaging_comparison_vllm.py`): when both percent changes
are present and the enhancement-priority rule is decisive, the rule's
assessment is returned with the fixed rule confidence `0.95`, ignoring the
LLM response entirely.  `none` models control falling through to the
LLM-JSON parsing path, which is outside the deterministic core. -/
def parse_response_volume_path (ctx : ImagingContext) : Option (String × ℚ) :=
  match ctx.flair_change_pct, ctx.enhancement_change_pct with
  | some f, some e =>
      let volume_assessment := apply_enhancement_priority_rule f e
        ctx.baseline_flair ctx.baseline_enhancement
        ctx.followup_flair ctx.followup_enhancement
      if volume_assessment ≠ "unknown" then
        some (volume_assessment, 95/100)
      else
        none
  | _, _ => none

/-- Quantitative context of the end-to-end scenario of C7: FLAIR -48%,
enhancement -25%, no absolute volumes and no radiation date. -/
def scenario_context : ImagingContext :=
  { flair_change_pct := some (-48)
    enhancement_change_pct := some (-25)
    baseline_flair := none
    baseline_enhancement := none
    followup_flair := none
    followup_enhancement := none }

/-- C7: end-to-end scenario.  With FLAIR -48% and enhancement -25%, the
imaging assessment resolves to `"improved"` through the deterministic
volume rule with confidence 0.95; the traversal runs
prior-assessment(`"yes"`) → imaging-assessment(`"improved"`) →
medications(`"neither"`) → terminal `outcome_bt_1a` with BT-RADS score
`"1a"`, and the score table agrees. -/
theorem c7_end_to_end :
    parse_response_volume_path scenario_context = some ("improved", 95/100)
    ∧ get_next_node NodeId.node_1_suitable_prior "yes" =
        some NodeId.node_2_imaging_assessment
    ∧ get_next_node NodeId.node_2_imaging_assessment "improved" =
        some NodeId.node_3a_medications
    ∧ get_next_node NodeId.node_3a_medications "neither" =
        some NodeId.outcome_bt_1a
    ∧ is_terminal NodeId.outcome_bt_1a = true
    ∧ (flowchartNodes NodeId.outcome_bt_1a).btrads_score = some "1a"
    ∧ get_btrads_score "" "improved" (some "neither") none none none none =
        ("1a", "True tumor improvement (no medication effects)") := by
  have h0 : strContains "" "suitable_prior" = false := by decide
  refine ⟨?_, by decide, by decide, by decide, by decide, by decide,
    by simp [get_btrads_score, h0]⟩
  show (let volume_assessment := apply_enhancement_priority_rule (-48) (-25)
          none none none none
        if volume_assessment ≠ "unknown" then
          some (volume_assessment, (95/100 : ℚ))
        else none) = some ("improved", 95/100)
  have h : apply_enhancement_priority_rule (-48) (-25) none none none none =
      "improved" := by
    rw [apply_rule_cases]
    have hf : direction_from_pct (-48) = Direction.down := by
      norm_num [direction_from_pct]
    have he : direction_from_pct (-25) = Direction.down := by
      norm_num [direction_from_pct]
    rw [hf, he]
  simp only [h]
  have hne : ("improved" : String) ≠ "unknown" := by decide
  rw [if_pos hne]

/-! ## Orchestrator traversal and error fallback —
`backend/agents/orchestration/agent_orchestrator.py` and
`backend/agents/base_simple.py` -/

/-- The values an agent can hand the orchestrator: the extraction agents
return either a plain string category or — on any internal exception — the
Python dict `{"error": True, "message": msg}` built by
`_create_error_result`. -/
inductive ExtractedValue
  | str (s : String)
  | errorDict (message : String)
deriving DecidableEq

/-- A single-quote character, kept out of string literals. -/
def squote : String := String.mk [Char.ofNat 39]

/-- Python's `str()` of the error dict `{"error": True, "message": msg}`
(the form `_determine_next_node` stringifies when routing): an opening
brace, the quoted keys and values, a closing brace. -/
def pyDictStr (msg : String) : String :=
  String.mk (Char.ofNat 123 ::
    ((squote ++ "error" ++ squote ++ ": True, " ++ squote ++ "message" ++
      squote ++ ": " ++ squote ++ msg ++ squote).data ++ [Char.ofNat 125]))

/-- `str(value)` as used by `_determine_next_node` (line 279). -/
def str_of_value : ExtractedValue → String
  | ExtractedValue.str s => s
  | ExtractedValue.errorDict m => pyDictStr m

/-- The fields of `AgentResult` that the orchestrator's traversal,
confidence aggregation and audit trail read. -/
structure AgentResultM where
  extracted_value : ExtractedValue
  confidence : ℚ
  reasoning : String
deriving DecidableEq

/-- `SimpleBaseAgent._create_error_result` (lines 170-183 of
`base_simple.py`): error-dict value, confidence 0, reasoning
`"Error: " + error_msg`.  Every extraction agent wraps its body in
`try/except` and returns this on any failure, so `extract` itself never
raises. -/
def create_error_result (error_msg : String) : AgentResultM :=
  { extracted_value := ExtractedValue.errorDict error_msg
    confidence := 0
    reasoning := "Error: " ++ error_msg }

/-- `AgentOrchestrator._determine_next_node` (lines 276-279): exact lookup
of `str(value)` in the node's transition map, falling back to
`default_next`. -/
def determine_next_node (nid : NodeId) (value : ExtractedValue) :
    Option NodeId :=
  match List.lookup (str_of_value value) (flowchartNodes nid).next_nodes with
  | some nxt => some nxt
  | none => (flowchartNodes nid).default_next

/-- `AgentOrchestrator._calculate_confidence` (lines 297-303): mean of the
stored result confidences, `0.0` when no results exist. -/
def calculate_confidence (results : List (String × AgentResultM)) : ℚ :=
  if results.length = 0 then 0
  else (results.map (fun r => r.2.confidence)).sum / results.length

/-- The final-result fields of `BTRADSResult` that the traversal
determines: terminal score, aggregate confidence, stored per-agent
results, and the decision path. -/
structure BTRADSResultM where
  score : String
  confidence_score : ℚ
  results : List (String × AgentResultM)
  path : List (NodeId × Option ExtractedValue)
deriving DecidableEq

/-- `AgentOrchestrator._process_node` (lines 101-160) in auto-validate
mode, parametrized by the agent registry (`self.agents`; `none` models the
`"Unknown agent"` `ValueError`, which aborts the case).  Extraction nodes
run their agent, accept the extracted value, record the result, and
recurse on `_determine_next_node`; outcome nodes return their score.  The
`Nat` argument is recursion fuel standing in for Python's unbounded
recursion. -/
def process_node (agents : String → Option AgentResultM) :
    Nat → NodeId → List (String × AgentResultM) →
    List (NodeId × Option ExtractedValue) →
    Option (String × List (String × AgentResultM) ×
      List (NodeId × Option ExtractedValue))
  | 0, _, _, _ => none
  | fuel+1, nid, results, path =>
    match (flowchartNodes nid).type with
    | NodeType.outcome =>
        (flowchartNodes nid).btrads_score.map
          (fun s => (s, results, path ++ [(nid, none)]))
    | NodeType.data_extraction =>
        match (flowchartNodes nid).agent with
        | none => none
        | some agent_name =>
            match agents agent_name with
            | none => none
            | some agent_result =>
                match determine_next_node nid agent_result.extracted_value with
                | some nxt =>
                    process_node agents fuel nxt
                      (results ++ [(agent_name, agent_result)])
                      (path ++ [(nid, some agent_result.extracted_value)])
                | none => none

/-- `AgentOrchestrator.process_patient` (lines 44-99) in auto-validate
mode: run the traversal from `node_1_suitable_prior` and assemble the
final result with the aggregate confidence. -/
def process_patient (agents : String → Option AgentResultM) :
    Option BTRADSResultM :=
  match process_node agents 20 NodeId.node_1_suitable_prior [] [] with
  | some (score, results, path) =>
      some { score := score
             confidence_score := calculate_confidence results
             results := results
             path := path }
  | none => none

/-- The keys of the `self.agents` registry built in
`AgentOrchestrator.__init__` (lines 31-39). -/
def known_agents : List String :=
  ["prior_assessment", "imaging_comparison", "medication_status",
   "radiation_timeline", "component_analysis", "extent_analysis",
   "progression_pattern"]

/-- The agent registry in which every extractor invocation fails: each
known agent returns `_create_error_result` with its own message. -/
def err_agents (msgs : String → String) : String → Option AgentResultM :=
  fun a => if a ∈ known_agents then some (create_error_result (msgs a))
    else none

theorem pyDictStr_head (msg : String) :
    (pyDictStr msg).data.head? = some (Char.ofNat 123) := rfl

/-- The stringified error dict starts with a brace and therefore never
matches a transition key starting with a different character. -/
theorem pyDictStr_beq_false (msg k : String)
    (h : k.data.head? ≠ some (Char.ofNat 123)) :
    (pyDictStr msg == k) = false := by
  rw [beq_eq_false_iff_ne]
  intro he
  exact h (he ▸ pyDictStr_head msg)

theorem lookup_none_of_beq_false {β : Type} (a : String)
    (l : List (String × β)) (h : ∀ p ∈ l, (a == p.1) = false) :
    List.lookup a l = none := by
  induction l with
  | nil => rfl
  | cons hd tl ih =>
      rw [List.lookup, h hd (by simp)]
      exact ih fun p hp => h p (by simp [hp])

/-- Routing an error dict through `_determine_next_node`: its stringified
form matches no transition key, so the node's `default_next` is taken. -/
theorem determine_next_errorDict (nid : NodeId) (msg : String)
    (h : ∀ p ∈ (flowchartNodes nid).next_nodes, (pyDictStr msg == p.1) = false) :
    determine_next_node nid (ExtractedValue.errorDict msg) =
      (flowchartNodes nid).default_next := by
  show (match List.lookup (pyDictStr msg) (flowchartNodes nid).next_nodes with
       | some nxt => some nxt
       | none => (flowchartNodes nid).default_next) =
      (flowchartNodes nid).default_next
  rw [lookup_none_of_beq_false _ _ h]

theorem determine_next_errorDict_node1 (msg : String) :
    determine_next_node NodeId.node_1_suitable_prior
      (ExtractedValue.errorDict msg) =
      some NodeId.node_2_imaging_assessment := by
  refine (determine_next_errorDict NodeId.node_1_suitable_prior msg ?_).trans
    rfl
  intro p hp
  simp only [flowchartNodes, List.mem_cons, List.not_mem_nil, or_false] at hp
  rcases hp with rfl | rfl | rfl
  · exact pyDictStr_beq_false msg "yes" (by decide)
  · exact pyDictStr_beq_false msg "no" (by decide)
  · exact pyDictStr_beq_false msg "unknown" (by decide)

theorem determine_next_errorDict_node2 (msg : String) :
    determine_next_node NodeId.node_2_imaging_assessment
      (ExtractedValue.errorDict msg) = some NodeId.outcome_bt_2 := by
  refine (determine_next_errorDict NodeId.node_2_imaging_assessment msg
    ?_).trans rfl
  intro p hp
  simp only [flowchartNodes, List.mem_cons, List.not_mem_nil, or_false] at hp
  rcases hp with rfl | rfl | rfl | rfl
  · exact pyDictStr_beq_false msg "improved" (by decide)
  · exact pyDictStr_beq_false msg "unchanged" (by decide)
  · exact pyDictStr_beq_false msg "worse" (by decide)
  · exact pyDictStr_beq_false msg "unknown" (by decide)

theorem error_reasoning_ne_empty (s : String) : ("Error: " ++ s) ≠ "" := by
  intro h
  have hl := congrArg String.length h
  rw [String.length_append] at hl
  have h7 : ("Error: " : String).length = 7 := rfl
  have h0 : ("" : String).length = 0 := rfl
  rw [h7, h0] at hl
  omega

/-- C3: the fallback-is-mandatory policy.  When every extractor invocation
fails — every agent returns `_create_error_result`, whatever the error
messages are — the orchestrator still reaches a terminal node (score
`"2"` via the `default_next` edges of the prior-assessment and
imaging-assessment nodes), the final confidence score is 0, each visited
node has recorded an error-typed result with confidence 0 and a non-empty
`"Error: ..."` annotation, and no exception surfaces (the run returns a
result, not `none`). -/
theorem c3_fallback_mandatory (msgs : String → String) :
    process_patient (err_agents msgs) =
      some { score := "2"
             confidence_score := 0
             results :=
               [("prior_assessment",
                  create_error_result (msgs "prior_assessment")),
                ("imaging_comparison",
                  create_error_result (msgs "imaging_comparison"))]
             path :=
               [(NodeId.node_1_suitable_prior,
                  some (ExtractedValue.errorDict (msgs "prior_assessment"))),
                (NodeId.node_2_imaging_assessment,
                  some (ExtractedValue.errorDict (msgs "imaging_comparison"))),
                (NodeId.outcome_bt_2, none)] }
    ∧ (create_error_result (msgs "prior_assessment")).confidence = 0
    ∧ (create_error_result (msgs "prior_assessment")).reasoning ≠ ""
    ∧ (create_error_result (msgs "imaging_comparison")).reasoning ≠ "" := by
  refine ⟨?_, rfl, error_reasoning_ne_empty _, error_reasoning_ne_empty _⟩
  have e1 : process_node (err_agents msgs) 20 NodeId.node_1_suitable_prior
      [] [] =
      process_node (err_agents msgs) 19 NodeId.node_2_imaging_assessment
        [("prior_assessment", create_error_result (msgs "prior_assessment"))]
        [(NodeId.node_1_suitable_prior,
          some (ExtractedValue.errorDict (msgs "prior_assessment")))] := by
    have h0 : process_node (err_agents msgs) 20 NodeId.node_1_suitable_prior
        [] [] =
        match determine_next_node NodeId.node_1_suitable_prior
            (ExtractedValue.errorDict (msgs "prior_assessment")) with
        | some nxt =>
            process_node (err_agents msgs) 19 nxt
              [("prior_assessment",
                create_error_result (msgs "prior_assessment"))]
              [(NodeId.node_1_suitable_prior,
                some (ExtractedValue.errorDict (msgs "prior_assessment")))]
        | none => none := rfl
    rw [h0, determine_next_errorDict_node1]
  have e2 : process_node (err_agents msgs) 19
      NodeId.node_2_imaging_assessment
      [("prior_assessment", create_error_result (msgs "prior_assessment"))]
      [(NodeId.node_1_suitable_prior,
        some (ExtractedValue.errorDict (msgs "prior_assessment")))] =
      some ("2",
        [("prior_assessment", create_error_result (msgs "prior_assessment")),
         ("imaging_comparison",
           create_error_result (msgs "imaging_comparison"))],
        [(NodeId.node_1_suitable_prior,
           some (ExtractedValue.errorDict (msgs "prior_assessment"))),
         (NodeId.node_2_imaging_assessment,
           some (ExtractedValue.errorDict (msgs "imaging_comparison"))),
         (NodeId.outcome_bt_2, none)]) := by
    have h0 : process_node (err_agents msgs) 19
        NodeId.node_2_imaging_assessment
        [("prior_assessment",
          create_error_result (msgs "prior_assessment"))]
        [(NodeId.node_1_suitable_prior,
          some (ExtractedValue.errorDict (msgs "prior_assessment")))] =
        match determine_next_node NodeId.node_2_imaging_assessment
            (ExtractedValue.errorDict (msgs "imaging_comparison")) with
        | some nxt =>
            process_node (err_agents msgs) 18 nxt
              [("prior_assessment",
                 create_error_result (msgs "prior_assessment")),
               ("imaging_comparison",
                 create_error_result (msgs "imaging_comparison"))]
              [(NodeId.node_1_suitable_prior,
                 some (ExtractedValue.errorDict (msgs "prior_assessment"))),
               (NodeId.node_2_imaging_assessment,
                 some (ExtractedValue.errorDict
                   (msgs "imaging_comparison")))]
        | none => none := rfl
    rw [h0, determine_next_errorDict_node2]
    rfl
  have hconf : calculate_confidence
      [("prior_assessment", create_error_result (msgs "prior_assessment")),
       ("imaging_comparison",
         create_error_result (msgs "imaging_comparison"))] = 0 := by
    simp [calculate_confidence, create_error_result]
  show process_patient (err_agents msgs) = _
  unfold process_patient
  rw [e1, e2]
  show some _ = _
  rw [hconf]

/-! ## Validation gate — `AgentOrchestrator._wait_for_validation` and
`AgentOrchestrator.validate_result` -/

/-- The pending-validation record stored in the session dict by
`_wait_for_validation` (lines 209-216 of `agent_orchestrator.py`):
the validation id, the node, the proposed agent result, the slot for the
clinician's value, and the `asyncio.Event` flag that releases the waiting
coroutine. -/
structure PendingValidation where
  id : String
  node_id : String
  result : AgentResultM
  validated_value : Option ExtractedValue
  event_set : Bool
deriving DecidableEq

/-- The per-case session state relevant to the validation gate: the single
`"pending_validation"` slot of `active_sessions[patient_id]`. -/
structure Session where
  pending_validation : Option PendingValidation
deriving DecidableEq

/-- The registration half of `_wait_for_validation` (lines 207-216): a
fresh pending validation is stored unconditionally in the session's
single slot — any previously stored pending validation is overwritten,
with no error raised. -/
def register_validation (s : Session) (validation_id node_id : String)
    (agent_result : AgentResultM) : Session :=
  { s with
    pending_validation := some { id := validation_id
                                 node_id := node_id
                                 result := agent_result
                                 validated_value := none
                                 event_set := false } }

/-- `AgentOrchestrator.validate_result` (lines 231-258): `ValueError`
when the session has no pending validation; `ValueError` on a validation
id mismatch (the pending validation is left untouched, since the raise
happens before any mutation); otherwise the validated value is stored and
the event set. -/
def validate_result (session : Option Session) (validation_id : String)
    (validated_value : ExtractedValue) : Except String Session :=
  match session with
  | none => Except.error "No pending validation found"
  | some s =>
      match s.pending_validation with
      | none => Except.error "No pending validation found"
      | some pending =>
          if pending.id ≠ validation_id then
            Except.error "Validation ID mismatch"
          else
            Except.ok { s with
              pending_validation := some { pending with
                                           validated_value := some validated_value
                                           event_set := true } }

/-- A sample agent result used in the validation-gate scenarios. -/
def sample_result_a : AgentResultM :=
  { extracted_value := ExtractedValue.str "yes"
    confidence := 1
    reasoning := "prior study available" }

/-- A second sample agent result. -/
def sample_result_b : AgentResultM :=
  { extracted_value := ExtractedValue.str "improved"
    confidence := 1
    reasoning := "volumes decreased" }

/-- A session already holding an outstanding pending validation. -/
def session_with_pending : Session :=
  { pending_validation := some { id := "case1_node_1_t0"
                                 node_id := "node_1_suitable_prior"
                                 result := sample_result_a
                                 validated_value := none
                                 event_set := false } }

/-- C8 counterexample: requesting a second validation while one is
outstanding does NOT produce an error — `_wait_for_validation` stores the
new pending validation unconditionally, so the call succeeds and the
first pending validation is replaced (its id is gone from the slot),
contradicting the claim that the second request errors and leaves the
first undisturbed. -/
theorem c8_counterexample :
    (register_validation session_with_pending "case1_node_2_t1"
        "node_2_imaging_assessment" sample_result_b).pending_validation.map
        PendingValidation.id = some "case1_node_2_t1"
    ∧ session_with_pending.pending_validation.map PendingValidation.id =
        some "case1_node_1_t0"
    ∧ ("case1_node_2_t1" : String) ≠ "case1_node_1_t0" :=
  ⟨rfl, rfl, by decide⟩

/-- C8 amended: the session holds at most one pending validation — the
single `pending_validation` slot — but a second validation request does
not error: it silently replaces the slot.  A `Resolve` call whose token
does not match the outstanding pending validation's id is rejected with
the `"Validation ID mismatch"` error and performs no mutation, so the
pending validation remains open. -/
theorem c8_single_pending_validation (s : Session) (p : PendingValidation)
    (vid : String) (v : ExtractedValue)
    (hp : s.pending_validation = some p) (hne : p.id ≠ vid) :
    validate_result (some s) vid v =
      Except.error "Validation ID mismatch"
    ∧ ∀ (vid2 nid2 : String) (r2 : AgentResultM),
        (register_validation s vid2 nid2 r2).pending_validation =
          some { id := vid2
                 node_id := nid2
                 result := r2
                 validated_value := none
                 event_set := false } := by
  obtain ⟨sp⟩ := s
  have hp2 : sp = some p := hp
  subst hp2
  constructor
  · have he : validate_result (some ⟨some p⟩) vid v =
        if p.id ≠ vid then Except.error "Validation ID mismatch"
        else Except.ok ⟨some { p with
                               validated_value := some v
                               event_set := true }⟩ := rfl
    rw [he, if_pos hne]
  · intro vid2 nid2 r2
    rfl

/-- Closed witness for `c8_single_pending_validation`: resolving with a
stale token against the sample session is rejected as a mismatch. -/
theorem c8_single_pending_validation_witness :
    validate_result (some session_with_pending) "stale-token"
      (ExtractedValue.str "no") =
      Except.error "Validation ID mismatch" :=
  (c8_single_pending_validation session_with_pending
    { id := "case1_node_1_t0"
      node_id := "node_1_suitable_prior"
      result := sample_result_a
      validated_value := none
      event_set := false }
    "stale-token" (ExtractedValue.str "no") rfl (by decide)).1

/-! ## LangGraph encoding —
`backend/agents/orchestration/langgraph_orchestrator.py` -/

/-- The per-node decision values stored in `state["decisions"]` and read
by the routing functions of `LangGraphOrchestrator`.  `radiation_recent`
is `days_since_radiation < 90`, computed in `_radiation_check_node` with
the default `999` when no radiation date exists. -/
structure LGDecisions where
  has_prior : Bool
  imaging_change : String
  radiation_recent : Bool
  component_pattern : String
  extent : String
  progression_pattern : String
  avastin_status : String
  steroid_status : String
deriving DecidableEq

/-- `_route_from_prior` (lines 456-460). -/
def route_from_prior (d : LGDecisions) : String :=
  if d.has_prior then "has_prior" else "no_prior"

/-- `_route_from_imaging` (lines 462-470): anything other than
`"improved"` or `"stable"` — including `"unchanged"` and `"unknown"` —
routes to `"worse"`. -/
def route_from_imaging (d : LGDecisions) : String :=
  if d.imaging_change = "improved" then "improved"
  else if d.imaging_change = "stable" then "stable"
  else "worse"

/-- `_route_from_medication` (lines 472-484). -/
def route_from_medication (d : LGDecisions) : String :=
  if d.avastin_status = "ongoing" ∨ d.avastin_status = "first_treatment" ∨
      d.avastin_status = "started" then "on_avastin"
  else if d.steroid_status = "increasing" ∨ d.steroid_status = "started" then
    "on_steroids"
  else if d.avastin_status = "none" ∧
      (d.steroid_status = "none" ∨ d.steroid_status = "stable" ∨
        d.steroid_status = "decreasing") then "no_meds"
  else "unknown"

/-- `_route_from_radiation` (lines 486-490). -/
def route_from_radiation (d : LGDecisions) : String :=
  if d.radiation_recent then "recent" else "remote"

/-- `_route_from_component` (lines 492-500): any pattern other than
`"flair_only"` — including `"unknown"` — routes to `"enhancement"`. -/
def route_from_component (d : LGDecisions) : String :=
  if d.component_pattern = "flair_only" then "flair_only"
  else if d.component_pattern = "enhancement" ∨
      d.component_pattern = "mixed" then "enhancement"
  else "enhancement"

/-- `_route_from_extent` (lines 502-507). -/
def route_from_extent (d : LGDecisions) : String :=
  if d.extent = "limited" then "limited" else "extensive"

/-- `_route_from_progression` (lines 509-514). -/
def route_from_progression (d : LGDecisions) : String :=
  if d.progression_pattern = "progressive" then "progressive"
  else "stable_pattern"

/-- The conditional-edge wiring of `_build_graph` (lines 96-206) composed
with the terminal-node score assignments (`_terminal_node_bt0` sets `"0"`,
the other terminal nodes set `"BT-"`-prefixed scores, lines 407-453). -/
def langgraph_terminal (d : LGDecisions) : String :=
  if route_from_prior d = "no_prior" then "0"
  else
    if route_from_imaging d = "stable" then "BT-2"
    else if route_from_imaging d = "improved" then
      if route_from_medication d = "no_meds" then "BT-1a"
      else if route_from_medication d = "on_avastin" then "BT-1b"
      else if route_from_medication d = "on_steroids" then "BT-1b"
      else "BT-1a"
    else
      if route_from_radiation d = "recent" then "BT-3a"
      else
        if route_from_component d = "flair_only" then "BT-3b"
        else
          if route_from_extent d = "limited" then "BT-3b"
          else
            if route_from_progression d = "progressive" then "BT-4"
            else "BT-3c"

/-- The score normalization of `_create_result` (lines 592-595): a
leading `"BT-"` is stripped before the `BTRADSScore` enum is built. -/
def stripBT (s : String) : String :=
  if "BT-".data <+: s.data then String.mk (s.data.drop 3) else s

/-- The final score string produced by the LangGraph encoding for a given
assignment of decision values. -/
def langgraph_score (d : LGDecisions) : String :=
  stripBT (langgraph_terminal d)

/-- The table-driven flowchart traversal over per-node decision values:
walk `get_next_node` from a node until an outcome node is reached and
return its score.  The `Nat` argument is recursion fuel. -/
def flowchart_run (decisions : NodeId → String) :
    Nat → NodeId → Option String
  | 0, _ => none
  | fuel+1, nid =>
      match (flowchartNodes nid).type with
      | NodeType.outcome => (flowchartNodes nid).btrads_score
      | NodeType.data_extraction =>
          match get_next_node nid (decisions nid) with
          | some nxt => flowchart_run decisions fuel nxt
          | none => none

/-- The assignment of the cited scenario: a suitable prior exists, and
every subsequent node resolves to its `"unknown"`-class value.  For the
LangGraph state this means `has_prior = true`, every string decision
`"unknown"`, and `radiation_recent = (999 < 90) = false` (the default day
count when no radiation date is known). -/
def unknown_decisions : NodeId → String :=
  fun nid => if nid = NodeId.node_1_suitable_prior then "yes" else "unknown"

/-- The same assignment for the LangGraph decision state. -/
def unknown_lg : LGDecisions :=
  { has_prior := true
    imaging_change := "unknown"
    radiation_recent := false
    component_pattern := "unknown"
    extent := "unknown"
    progression_pattern := "unknown"
    avastin_status := "unknown"
    steroid_status := "unknown" }

/-- C10 counterexample: the two encodings of the decision graph are not
equivalent.  On the assignment where a suitable prior exists and every
other node value is `"unknown"`, the `BTRADSFlowchart` table terminates at
score `"2"` (its imaging node maps `"unknown"` to `outcome_bt_2`), while
the LangGraph routing yields `"3c"` (its imaging router sends `"unknown"`
to the worse branch). -/
theorem c10_counterexample :
    flowchart_run unknown_decisions 10 NodeId.node_1_suitable_prior ≠
      some (langgraph_score unknown_lg) := by decide

/-- C10 amended: the two encodings disagree on `"unknown"`-class values.
On the all-unknown assignment (with a suitable prior) the flowchart gives
`"2"` and the LangGraph gives `"3c"`; the flowchart routes an unknown
component pattern to `outcome_bt_3b` while the LangGraph routes it to the
extent-analysis side (`"enhancement"`); the flowchart routes an unknown
imaging assessment to `outcome_bt_2` while the LangGraph routes it to the
`"worse"` branch. -/
theorem c10_encodings_disagree :
    flowchart_run unknown_decisions 10 NodeId.node_1_suitable_prior =
      some "2"
    ∧ langgraph_score unknown_lg = "3c"
    ∧ get_next_node NodeId.node_2_imaging_assessment "unknown" =
        some NodeId.outcome_bt_2
    ∧ route_from_imaging unknown_lg = "worse"
    ∧ get_next_node NodeId.node_5_what_is_worse "unknown" =
        some NodeId.outcome_bt_3b
    ∧ route_from_component unknown_lg = "enhancement" := by decide

end BTRADS
